import Mathlib

/-!
Verification development for the `omsg` crate (`src/lib.rs`): stack-based
log-message formatting for a compute-metered environment.  The crate
exposes three macros:

  * `sum!`    — the size estimator: adds `std::mem::size_of_val(&arg)`
                over the arguments (lib.rs lines 12–25);
  * `omsg!`   — estimates, picks a capacity tier by a guard chain
                (lib.rs lines 34–42), renders into a fixed `arrform`
                buffer of that capacity or falls back to heap `format!`,
                and hands the result to the `msg!` sink;
  * `omsg_trace!` — same, with a `file:line` prefix rendered into its own
                fixed 128-byte buffer (lib.rs lines 48–64).

The `arrform` buffer module is declared (`pub mod arrform;`) but its file
is not part of the sources, so the buffer-write behaviour, the
placeholder template language and the path-basename helper are modelled
from the specification; everything else is translated from `src/lib.rs`.
The target is 64-bit (Solana BPF), so a text reference (`&str`) occupies
a pointer+length pair of 16 bytes.
-/

namespace Omsg

/-- Model of the Rust values that can appear as arguments of the logging
macros: text references and small fixed-width integers (the argument
universe the crate's tests and the spec §4.2 exercise), plus the
zero-sized unit value. -/
inductive RVal where
  | strRef (s : String)
  | u8 (n : Nat)
  | u16 (n : Nat)
  | u32 (n : Nat)
  | u64 (n : Nat)
  | unit
deriving DecidableEq, Repr

/-- `std::mem::size_of_val(&v)` on a 64-bit target: a `&str` value is a
pointer+length pair (8 + 8 bytes); an integer contributes its own byte
width; `()` is zero-sized. -/
def size_of_val : RVal → Nat
  | .strRef _ => 16
  | .u8 _ => 1
  | .u16 _ => 2
  | .u32 _ => 4
  | .u64 _ => 8
  | .unit => 0

/-- The `sum!` macro (lib.rs lines 12–25): starts with `result = 0` and
rebinds `result = result + size_of_val(&arg)` once per argument, left to
right, returning the final value. -/
def sum (args : List RVal) : Nat :=
  args.foldl (fun result a => result + size_of_val a) 0

/-- The outcome of the tier dispatch in `omsg!`: a fixed-capacity
stack tier, or the unbounded heap `format!` fallback. -/
inductive TierSel where
  | tier (cap : Nat)
  | unbounded
deriving DecidableEq, Repr

/-- The ascending tier list of the crate (capacities of the `arrform!`
buffers appearing in the match arms of lib.rs lines 35–40). -/
def tierList : List Nat := [32, 64, 128, 256, 512, 768]

/-- The guard chain of the `match input_sizes` in `omsg!`
(lib.rs lines 34–42), arm by arm and in source order:
`s <= 768 && s > 512` picks the 768 buffer, … down to
`s <= 32 && s > 0` picking the 32 buffer, and the wildcard arm falls
back to heap `format!`. -/
def select_tier (s : Nat) : TierSel :=
  if s ≤ 768 ∧ s > 512 then .tier 768
  else if s ≤ 512 ∧ s > 256 then .tier 512
  else if s ≤ 256 ∧ s > 128 then .tier 256
  else if s ≤ 128 ∧ s > 64 then .tier 128
  else if s ≤ 64 ∧ s > 32 then .tier 64
  else if s ≤ 32 ∧ s > 0 then .tier 32
  else .unbounded

/-- The tier-selection contract in the words of spec §8 / claim C1:
the smallest listed tier whose capacity is ≥ the estimate, else
unbounded.  Stated for comparison with `select_tier`; since `tierList`
is ascending, `find?` returns the smallest sufficient tier. -/
def select_tier_spec (e : Nat) : TierSel :=
  match tierList.find? (fun t => e ≤ t) with
  | some t => .tier t
  | none => .unbounded

/-- The order on selection outcomes used by the monotonicity claim:
tiers by capacity, with the unbounded fallback at the top. -/
def tierSelLeb : TierSel → TierSel → Bool
  | .tier a, .tier b => a ≤ b
  | .tier _, .unbounded => true
  | .unbounded, .tier _ => false
  | .unbounded, .unbounded => true

/-! ## The fixed-capacity buffer, modelled from the spec

`pub mod arrform;` names the buffer module, but its source file is not
among the sources, so `ArrForm` is modelled from spec §4.1: a buffer of
`capacity` bytes; writing rendered text keeps the longest prefix that
fits, cut at a character boundary, and never fails. -/

/-- UTF-8 byte length of a character sequence (`Char.utf8Size` is the
number of bytes of one character's UTF-8 encoding). -/
def bytesLen : List Char → Nat
  | [] => 0
  | c :: cs => c.utf8Size + bytesLen cs

/-- Modelled from the spec: §4.1 — the write of the missing `ArrForm`
buffer keeps characters greedily while they still fit in the remaining
capacity and stops at the first character that would overflow, i.e. it
truncates "at the last valid character boundary ≤ capacity" and never
fails. -/
def truncChars : List Char → Nat → List Char
  | [], _ => []
  | c :: cs, cap => if c.utf8Size ≤ cap then c :: truncChars cs (cap - c.utf8Size) else []

/-- Modelled from the spec: §4.1 — `ArrForm::as_str` after writing `s`
into a buffer of `cap` bytes (`arrform!(cap, ...)` of the missing
`arrform` module). -/
def arrformWrite (cap : Nat) (s : String) : String :=
  ⟨truncChars s.data cap⟩

/-! ## The template language, modelled from the spec

Spec §6 treats rendering as a "conventional positional-placeholder
string template": literal runs interleaved with placeholder holes, holes
filled by the arguments in order. -/

/-- Modelled from the spec: one piece of a format template — a literal
run of text, or a positional placeholder hole. -/
inductive TItem where
  | lit (s : String)
  | hole
deriving DecidableEq, Repr

/-- A format template: the sequence of its pieces. -/
abbrev Template := List TItem

/-- The source text of one template piece (a hole is spelled `\x7b\x7d`
in the source literal). -/
def tItemSource : TItem → String
  | .lit s => s
  | .hole => "\x7b\x7d"

/-- The source text of the template, as written at the call site; the
`sum!` estimate sees this literal as one more `&str` argument. -/
def templateSource (t : Template) : String :=
  String.join (t.map tItemSource)

/-- Modelled from the spec: the `Display` rendering of one argument
value (a text reference renders as its text, integers in decimal). -/
def display : RVal → String
  | .strRef s => s
  | .u8 n => toString n
  | .u16 n => toString n
  | .u32 n => toString n
  | .u64 n => toString n
  | .unit => ""

/-- Modelled from the spec: positional-placeholder rendering — literal
pieces are copied, each hole consumes the next argument in order. -/
def render : Template → List RVal → String
  | [], _ => ""
  | .lit s :: rest, args => s ++ render rest args
  | .hole :: rest, a :: args => display a ++ render rest args
  | .hole :: rest, [] => render rest []

/-! ## The two entry points (lib.rs lines 30–44 and 48–64) -/

/-- The `sum!($($args)*)` estimate computed by `omsg!` (lib.rs line 33):
the token list handed to `sum!` starts with the format-template literal
itself, then the interpolation arguments. -/
def omsgEstimate (t : Template) (args : List RVal) : Nat :=
  sum (RVal.strRef (templateSource t) :: args)

/-- The `omsg!` macro (lib.rs lines 30–44): estimate, dispatch on the
guard chain, render into the matching fixed buffer (or heap `format!`
in the wildcard arm), and pass the text to the `msg!` sink.  The value
is the string the sink receives. -/
def omsg (t : Template) (args : List RVal) : String :=
  match select_tier (omsgEstimate t args) with
  | .tier cap => arrformWrite cap (render t args)
  | .unbounded => render t args

/-- Modelled from the spec: `Path::file_name` of the `file!()` path —
the basename, i.e. the longest suffix without a path separator
(spec §3 TraceContext: "a file name (basename only)"). -/
def basename (p : String) : String :=
  ⟨(p.data.reverse.takeWhile (fun c => c ≠ '/')).reverse⟩

/-- The `"\x7b\x7d:\x7b\x7d"` template of the `file_info` buffer in
`omsg_trace!` (lib.rs line 52). -/
def traceTmpl : Template := [.hole, .lit ":", .hole]

/-- The arguments of the `file_info` render: the basename of `file!()`
and the `line!()` number (a `u32`). -/
def traceArgs (file : String) (line : Nat) : List RVal :=
  [.strRef (basename file), .u32 line]

/-- The `file_info` buffer of `omsg_trace!` (lib.rs lines 51–52):
`arrform!(128, "\x7b\x7d:\x7b\x7d", file_name, line!())` — the basename
and the line number rendered into a reserved 128-byte buffer. -/
def traceInfo (file : String) (line : Nat) : String :=
  arrformWrite 128 (render traceTmpl (traceArgs file line))

/-- The `omsg_trace!` macro (lib.rs lines 48–64): the same guard chain
as `omsg!`, each arm passing `"[\x7b\x7d] \x7b\x7d"` with `file_info`
and the rendered body to the `msg!` sink.  The value is the string the
sink receives. -/
def omsg_trace (file : String) (line : Nat) (t : Template) (args : List RVal) : String :=
  match select_tier (omsgEstimate t args) with
  | .tier cap => "[" ++ traceInfo file line ++ "] " ++ arrformWrite cap (render t args)
  | .unbounded => "[" ++ traceInfo file line ++ "] " ++ render t args

/-- The template `"abc too \x7b\x7d"` of the crate's `test_omsg` test. -/
def tmplAbc : Template := [.lit "abc too ", .hole]

/-- A 130-character file name, used to exercise the trace-prefix
overflow path. -/
def longName : String := ⟨List.replicate 130 'a'⟩

/-! ## Supporting lemmas -/

lemma select_tier_eq_unbounded_iff (e : Nat) :
    select_tier e = TierSel.unbounded ↔ e = 0 ∨ 768 < e := by
  unfold select_tier
  split_ifs <;> simp <;> omega

lemma sum_foldl (init : Nat) (args : List RVal) :
    args.foldl (fun result a => result + size_of_val a) init = init + sum args := by
  induction args generalizing init with
  | nil => simp [sum]
  | cons a as ih =>
      show List.foldl _ (init + size_of_val a) as = init + sum (a :: as)
      have h2 : sum (a :: as) = size_of_val a + sum as := by
        show List.foldl _ (0 + size_of_val a) as = _
        rw [ih]; omega
      rw [ih, h2]; omega

lemma sum_cons (a : RVal) (args : List RVal) :
    sum (a :: args) = size_of_val a + sum args := by
  rw [sum, List.foldl_cons, Nat.zero_add, sum_foldl]

lemma sum_eq_map_sum (args : List RVal) :
    sum args = (args.map size_of_val).sum := by
  induction args with
  | nil => rfl
  | cons a as ih => rw [sum_cons, List.map_cons, List.sum_cons, ih]

lemma bytesLen_truncChars_le (l : List Char) (cap : Nat) :
    bytesLen (truncChars l cap) ≤ cap := by
  induction l generalizing cap with
  | nil => simp [truncChars, bytesLen]
  | cons c cs ih =>
      rw [truncChars]
      split_ifs with h
      · have := ih (cap - c.utf8Size)
        rw [bytesLen]; omega
      · simp [bytesLen]

lemma truncChars_isPrefix (l : List Char) (cap : Nat) :
    truncChars l cap <+: l := by
  induction l generalizing cap with
  | nil => simp [truncChars]
  | cons c cs ih =>
      rw [truncChars]
      split_ifs with h
      · exact List.cons_prefix_cons.mpr ⟨rfl, ih (cap - c.utf8Size)⟩
      · exact List.nil_prefix

lemma truncChars_of_fits (l : List Char) (cap : Nat) (h : bytesLen l ≤ cap) :
    truncChars l cap = l := by
  induction l generalizing cap with
  | nil => rfl
  | cons c cs ih =>
      rw [bytesLen] at h
      rw [truncChars, if_pos (by omega)]
      rw [ih (cap - c.utf8Size) (by omega)]

/-- Greedy truncation is maximal: no longer prefix of `l` still fits in
`cap` bytes (spec §4.1: truncation happens at the *last* valid
character boundary not exceeding the capacity). -/
lemma truncChars_maximal (l : List Char) (cap : Nat) :
    ∀ p : List Char, p <+: l → bytesLen p ≤ cap → p.length ≤ (truncChars l cap).length := by
  induction l generalizing cap with
  | nil => intro p hp _; rw [List.prefix_nil.mp hp]; simp
  | cons c cs ih =>
      intro p hp hfit
      rw [truncChars]
      split_ifs with h
      · rcases p with _ | ⟨p0, ps⟩
        · simp
        · have hp0 : p0 = c := (List.cons_prefix_cons.mp hp).1
          have hps : ps <+: cs := (List.cons_prefix_cons.mp hp).2
          subst hp0
          rw [bytesLen] at hfit
          have := ih (cap - p0.utf8Size) ps hps (by omega)
          simpa using this
      · rcases p with _ | ⟨p0, ps⟩
        · simp
        · have hp0 : p0 = c := (List.cons_prefix_cons.mp hp).1
          subst hp0
          rw [bytesLen] at hfit
          omega

/-- Both arms of `omsg_trace!` emit the trace bracket followed by
exactly the text that `omsg!` would emit for the same template and
arguments (the guard chains of lib.rs lines 34–42 and 54–62 agree arm
by arm). -/
lemma omsg_trace_decomp (file : String) (line : Nat) (t : Template) (args : List RVal) :
    omsg_trace file line t args = "[" ++ traceInfo file line ++ "] " ++ omsg t args := by
  unfold omsg_trace omsg
  cases hsel : select_tier (omsgEstimate t args) <;> rfl

/-! ## Claims -/

/-- C1 (counterexample): at estimate 0 the code's guard chain falls to
the unbounded arm (`s > 0` fails in every guard), while the claimed
"unique smallest tier ≥ e" rule — `select_tier_spec`, spelled from the
claim's words — picks tier 32; so the claim, which reserves the
fallback for `e > 768`, fails at `e = 0`. -/
theorem claim_C1_counterexample :
    select_tier 0 = TierSel.unbounded ∧
    select_tier_spec 0 = TierSel.tier 32 ∧
    select_tier 0 ≠ select_tier_spec 0 := by decide

/-- C1 (amended): for every estimate `e ≥ 1`, tier selection over
`[32,64,128,256,512,768]` returns the unique smallest tier `t ≥ e`
when `e ≤ 768`, and the unbounded heap-formatting fallback when
`e > 768`. -/
theorem claim_C1 (e : Nat) (h : 1 ≤ e) :
    (e ≤ 768 → ∃ t, select_tier e = TierSel.tier t ∧ t ∈ tierList ∧ e ≤ t ∧
      ∀ u ∈ tierList, e ≤ u → t ≤ u) ∧
    (768 < e → select_tier e = TierSel.unbounded) := by
  constructor
  · intro hle
    unfold select_tier
    split_ifs with h2 h3 h4 h5 h6 h7
    · exact ⟨768, rfl, by decide, by omega, by intro u hu hue; fin_cases hu <;> omega⟩
    · exact ⟨512, rfl, by decide, by omega, by intro u hu hue; fin_cases hu <;> omega⟩
    · exact ⟨256, rfl, by decide, by omega, by intro u hu hue; fin_cases hu <;> omega⟩
    · exact ⟨128, rfl, by decide, by omega, by intro u hu hue; fin_cases hu <;> omega⟩
    · exact ⟨64, rfl, by decide, by omega, by intro u hu hue; fin_cases hu <;> omega⟩
    · exact ⟨32, rfl, by decide, by omega, by intro u hu hue; fin_cases hu <;> omega⟩
    · exfalso; omega
  · intro hgt
    rw [select_tier_eq_unbounded_iff]; omega

/-- C1 (witness): at estimate 513 the amended claim applies and yields
tier 768. -/
theorem claim_C1_witness : 1 ≤ 513 ∧ 513 ≤ 768 ∧ select_tier 513 = TierSel.tier 768 := by
  refine ⟨by norm_num, by norm_num, ?_⟩
  obtain ⟨t, ht, hmem, hle, hmin⟩ := (claim_C1 513 (by norm_num)).1 (by norm_num)
  fin_cases hmem <;> first | exact ht | exact absurd hle (by norm_num)

/-- C2: when the rendered content overflows the buffer's capacity, the
buffer's text is at most `capacity` bytes long and is a prefix, in
whole characters, of the full rendered output (so no multi-byte
character is split), and it is the longest such prefix; the write is a
total function of its inputs — it cannot fail, and the byte bound is
exactly the array bound. -/
theorem claim_C2 (cap : Nat) (s : String) (h : cap < bytesLen s.data) :
    bytesLen (arrformWrite cap s).data ≤ cap ∧
    (arrformWrite cap s).data <+: s.data ∧
    ∀ p : List Char, p <+: s.data → bytesLen p ≤ cap → p.length ≤ (arrformWrite cap s).data.length :=
  ⟨bytesLen_truncChars_le s.data cap, truncChars_isPrefix s.data cap,
    truncChars_maximal s.data cap⟩

/-- C2 (witness): writing the 4-byte text "abé" into a 3-byte buffer
keeps at most 3 bytes and a character-boundary prefix ("ab" — the
2-byte character é is not split). -/
theorem claim_C2_witness :
    3 < bytesLen (String.data "abé") ∧
    bytesLen (arrformWrite 3 "abé").data ≤ 3 ∧
    (arrformWrite 3 "abé").data <+: String.data "abé" :=
  ⟨by decide, (claim_C2 3 "abé" (by decide)).1, (claim_C2 3 "abé" (by decide)).2.1⟩

/-- C3: the `sum!` estimate is the sum over the arguments of the size
of each argument's in-memory representation; for the three text values
"y", "o", "bbbbbb" it is 16 + 16 + 16 = 48 (three pointer+length
pairs), not 8 (the total character count). -/
theorem claim_C3 :
    (∀ args : List RVal, sum args = (args.map size_of_val).sum) ∧
    sum [RVal.strRef "y", RVal.strRef "o", RVal.strRef "bbbbbb"] =
      size_of_val (RVal.strRef "y") + size_of_val (RVal.strRef "o") +
        size_of_val (RVal.strRef "bbbbbb") ∧
    sum [RVal.strRef "y", RVal.strRef "o", RVal.strRef "bbbbbb"] = 48 ∧
    sum [RVal.strRef "y", RVal.strRef "o", RVal.strRef "bbbbbb"] ≠ 8 :=
  ⟨sum_eq_map_sum, by decide, by decide, by decide⟩

/-- C3 (witness): the scenario estimate evaluates to 48. -/
theorem claim_C3_witness :
    sum [RVal.strRef "y", RVal.strRef "o", RVal.strRef "bbbbbb"] = 48 :=
  claim_C3.2.2.1

/-- C4: tier selection is total — every estimate yields the unbounded
fallback or one of the listed tiers — and both an estimate of 0 and
every estimate above 768 route to the unbounded fallback. -/
theorem claim_C4 :
    (∀ e : Nat, select_tier e = TierSel.unbounded ∨
      ∃ t ∈ tierList, select_tier e = TierSel.tier t) ∧
    select_tier 0 = TierSel.unbounded ∧
    ∀ e : Nat, 768 < e → select_tier e = TierSel.unbounded := by
  refine ⟨?_, by decide, ?_⟩
  · intro e
    unfold select_tier
    split_ifs
    · exact Or.inr ⟨768, by decide, rfl⟩
    · exact Or.inr ⟨512, by decide, rfl⟩
    · exact Or.inr ⟨256, by decide, rfl⟩
    · exact Or.inr ⟨128, by decide, rfl⟩
    · exact Or.inr ⟨64, by decide, rfl⟩
    · exact Or.inr ⟨32, by decide, rfl⟩
    · exact Or.inl rfl
  · intro e he
    rw [select_tier_eq_unbounded_iff]; omega

/-- C4 (witness): the estimate 900 exceeds 768 and routes to the
unbounded fallback. -/
theorem claim_C4_witness : select_tier 900 = TierSel.unbounded :=
  claim_C4.2.2 900 (by norm_num)

/-- C5 (counterexample): selection is not monotone over all estimates —
estimate 0 selects the unbounded fallback (top of the order) while the
larger estimate 1 selects tier 32. -/
theorem claim_C5_counterexample :
    0 ≤ 1 ∧ select_tier 0 = TierSel.unbounded ∧ select_tier 1 = TierSel.tier 32 ∧
    tierSelLeb (select_tier 0) (select_tier 1) = false := by decide

/-- C5 (amended): tier selection is monotone non-decreasing on
estimates ≥ 1, in the ascending tier order with the unbounded fallback
at the top. -/
theorem claim_C5 (e1 e2 : Nat) (h1 : 1 ≤ e1) (h : e1 ≤ e2) :
    tierSelLeb (select_tier e1) (select_tier e2) = true := by
  unfold select_tier
  split_ifs <;> first | decide | (exfalso; omega)

/-- C5 (witness): estimates 10 ≤ 600 select tiers in order. -/
theorem claim_C5_witness : tierSelLeb (select_tier 10) (select_tier 600) = true :=
  claim_C5 10 600 (by norm_num) (by norm_num)

/-- C6: an estimate exactly on a tier boundary selects that tier (the
band upper bound is inclusive): 512 selects tier 512, not tier 768, and
every listed capacity selects its own tier. -/
theorem claim_C6 :
    select_tier 512 = TierSel.tier 512 ∧
    select_tier 512 ≠ TierSel.tier 768 ∧
    ∀ t ∈ tierList, select_tier t = TierSel.tier t := by decide

/-- C6 (witness): the boundary estimate 768 selects tier 768. -/
theorem claim_C6_witness : select_tier 768 = TierSel.tier 768 :=
  claim_C6.2.2 768 (by decide)

/-- C7: when the rendered output fits the chosen tier's capacity, the
buffer text handed to the sink is exactly the rendered output, with no
truncation. -/
theorem claim_C7 (t : Template) (args : List RVal) (cap : Nat)
    (hsel : select_tier (omsgEstimate t args) = TierSel.tier cap)
    (hfit : bytesLen (render t args).data ≤ cap) :
    omsg t args = render t args := by
  unfold omsg
  rw [hsel]
  show String.mk (truncChars (render t args).data cap) = render t args
  rw [truncChars_of_fits _ _ hfit]

/-- C7 (witness): the template "abc too \x7b\x7d" with argument "yooo"
(estimate 32) selects the 32-byte tier and renders "abc too yooo"
(12 bytes) exactly. -/
theorem claim_C7_witness :
    select_tier (omsgEstimate tmplAbc [RVal.strRef "yooo"]) = TierSel.tier 32 ∧
    bytesLen (render tmplAbc [RVal.strRef "yooo"]).data ≤ 32 ∧
    omsg tmplAbc [RVal.strRef "yooo"] = "abc too yooo" :=
  ⟨by decide, by decide,
    (claim_C7 tmplAbc [RVal.strRef "yooo"] 32 (by decide) (by decide)).trans (by decide)⟩

/-- C8: the traced path hands the sink the two-part string
"[basename:line] message", where the message part is exactly what the
plain path would emit; with file "main.ext", line 42, template
"abc too \x7b\x7d" and argument "yoooo" the sink receives
"[main.ext:42] abc too yoooo". -/
theorem claim_C8 :
    (∀ (file : String) (line : Nat) (t : Template) (args : List RVal),
      omsg_trace file line t args = "[" ++ traceInfo file line ++ "] " ++ omsg t args) ∧
    omsg_trace "main.ext" 42 tmplAbc [RVal.strRef "yoooo"] = "[main.ext:42] abc too yoooo" :=
  ⟨omsg_trace_decomp, by decide⟩

/-- C8 (witness): the decomposition applied at the scenario inputs. -/
theorem claim_C8_witness :
    omsg_trace "main.ext" 42 tmplAbc [RVal.strRef "yoooo"] =
      "[" ++ traceInfo "main.ext" 42 ++ "] " ++ omsg tmplAbc [RVal.strRef "yoooo"] :=
  claim_C8.1 "main.ext" 42 tmplAbc [RVal.strRef "yoooo"]

/-- C9: when the rendered "file:line" text overflows the reserved
128-byte prefix buffer, the traced path still emits a message — the
prefix is silently truncated to at most 128 bytes at a character
boundary per the buffer policy, and no error path exists (the model is
a total function). -/
theorem claim_C9 (file : String) (line : Nat) (t : Template) (args : List RVal)
    (h : 128 < bytesLen (render traceTmpl (traceArgs file line)).data) :
    bytesLen (traceInfo file line).data ≤ 128 ∧
    (traceInfo file line).data <+: (render traceTmpl (traceArgs file line)).data ∧
    omsg_trace file line t args = "[" ++ traceInfo file line ++ "] " ++ omsg t args :=
  ⟨bytesLen_truncChars_le _ _, truncChars_isPrefix _ _, omsg_trace_decomp file line t args⟩

set_option maxRecDepth 4000 in
/-- C9 (witness): a 130-character file name overflows the 128-byte
prefix buffer, yet the prefix written is at most 128 bytes. -/
theorem claim_C9_witness :
    128 < bytesLen (render traceTmpl (traceArgs longName 7)).data ∧
    bytesLen (traceInfo longName 7).data ≤ 128 :=
  ⟨by decide, (claim_C9 longName 7 tmplAbc [] (by decide)).1⟩

/-- C10: the estimate fed to tier selection counts the format-template
literal itself (one more text reference, 16 bytes) in addition to the
arguments; so it is always strictly positive — at least 16, and exactly
16 with zero interpolation arguments — and the unbounded fallback can
only be reached because the estimate exceeds 768, never through the
estimate-equals-0 route. -/
theorem claim_C10 (t : Template) (args : List RVal) :
    omsgEstimate t args = sum (RVal.strRef (templateSource t) :: args) ∧
    omsgEstimate t args = 16 + sum args ∧
    0 < omsgEstimate t args ∧
    (select_tier (omsgEstimate t args) = TierSel.unbounded → 768 < omsgEstimate t args) := by
  have h16 : omsgEstimate t args = 16 + sum args := by
    rw [omsgEstimate, sum_cons]; rfl
  refine ⟨rfl, h16, by omega, ?_⟩
  intro hu
  rw [select_tier_eq_unbounded_iff] at hu
  omega

/-- C10 (witness): with the test template and no arguments the estimate
is exactly 16 and positive. -/
theorem claim_C10_witness :
    omsgEstimate tmplAbc [] = 16 + sum [] ∧ 0 < omsgEstimate tmplAbc [] :=
  ⟨(claim_C10 tmplAbc []).2.1, (claim_C10 tmplAbc []).2.2.1⟩

end Omsg
